import Mathlib

/-!
Verification of the tokenizer in `tblparser.py`.

The embedding models the character stream exactly as the Python code sees it:
a `StringIO`-like source is an immutable list of characters plus a cursor
position, with `read`, `seek`, `tell` and the `Reader.peek` wrapper.  All
scanner functions operate on this state.  Loops are given an explicit fuel
parameter; `Res.noFuel` means the computation did not finish within the given
fuel, `Res.assertFail` models a Python `AssertionError` raised by
`read_delimiter`, and `Res.ok` carries the Python return value together with
the final stream state.

Python-specific semantics that matter here and are modelled faithfully:
* `x in y` on strings is the SUBSTRING test, so `'' in ';\n'` is `True`
  (the empty string is a substring of every string): see `pyIn`.
* the truthiness test `if chunk and predicate(chunk)` treats the empty
  string as false.
* `str.isspace()` is true iff the string is non-empty and all characters are
  whitespace; ASCII whitespace suffices for the sources considered here.
-/

/-- A character source with a cursor: models `io.StringIO` (the source text is
immutable, `pos` is the sole mutable state). -/
structure Strm where
  src : List Char
  pos : Nat
deriving DecidableEq, Repr

/-- Result of running a scanner function: the Python return value and final
stream state, a Python `AssertionError`, or fuel exhaustion. -/
inductive Res (α : Type) where
  | ok : α → Res α
  | assertFail : Res α
  | noFuel : Res α
deriving DecidableEq, Repr

/-- Python's `needle in hay` on strings: substring containment.  In
particular `pyIn "" hay = true` for every `hay`. -/
def pyIn (needle hay : String) : Bool :=
  (List.range (hay.data.length + 1)).any fun i =>
    needle.data = (hay.data.drop i).take needle.data.length

/-- ASCII decision of Python's `str.isspace` on a single character. -/
def isSpaceChar (c : Char) : Bool :=
  c = ' ' || c = '\t' || c = '\n' || c = '\r' || c = '\x0b' || c = '\x0c'

/-- Python `s.isspace()`: non-empty and every character is whitespace. -/
def pyIsspace (s : String) : Bool :=
  !s.data.isEmpty && s.data.all isSpaceChar

/-- `stream.tell()`. -/
def tellS (s : Strm) : Nat := s.pos

/-- `stream.seek(p)` (absolute character offset).  Python raises on a negative
offset; every reachable call here has a non-negative argument, so `Nat`
subtraction at the single `seek(tell() - 1)` call site is faithful. -/
def seekS (s : Strm) (p : Nat) : Strm := ⟨s.src, p⟩

/-- `stream.read(n)`: returns the next `min n (length - pos)` characters and
advances the cursor by that many (no movement at end of input). -/
def readS (s : Strm) (n : Nat) : String × Strm :=
  (⟨(s.src.drop s.pos).take n⟩, ⟨s.src, s.pos + min n (s.src.length - s.pos)⟩)

/-- `stream.read(n)` used only for its cursor effect (the scanner often
discards the returned string). -/
def readAdv (s : Strm) (n : Nat) : Strm := (readS s n).2

/-- `Reader.peek` from `tokens`: `pos = tell(); c = read(1); seek(pos)`.
Returns the peeked string (empty at end of input) and the final state. -/
def readerPeek (s : Strm) : String × Strm :=
  let pos := tellS s
  let (c, s1) := readS s 1
  (c, seekS s1 pos)

/-- `stream.peek()` as the scanner calls it (via the `Reader` wrapper). -/
def peekS (s : Strm) : String := (readerPeek s).1

/-- The type of `peek_func` arguments of `consume`: given fuel and a stream,
produce `(unit, width)` and the stream state after the (possibly effectful)
peek. -/
abbrev PeekFn := Nat → Strm → Res (String × Nat × Strm)

/-- The default single-character peek inside `consume`:
`return stream.peek(), 1` (no state change, no fuel use). -/
def defaultPeek : PeekFn := fun _ s => .ok (peekS s, 1, s)

/-- `consume(stream, predicate, peek_func)`: repeatedly peek `(chunk, size)`;
if `chunk` is truthy and the predicate holds, `read(size)` and accumulate,
else stop.  The final state is the one left by the last (failing) peek, since
the Python peek functions mutate the stream in place. -/
def consume : Nat → PeekFn → (String → Bool) → Strm → Res (String × Strm)
  | 0, _, _, _ => .noFuel
  | fuel+1, pf, pred, s =>
    match pf fuel s with
    | .ok (chunk, size, s1) =>
      if (chunk != "") && pred chunk then
        match consume fuel pf pred (readAdv s1 size) with
        | .ok (token, s2) => .ok (chunk ++ token, s2)
        | .assertFail => .assertFail
        | .noFuel => .noFuel
      else .ok ("", s1)
    | .assertFail => .assertFail
    | .noFuel => .noFuel

/-- `is_ignorable_space(c)`: `c.isspace() and c != '\n'`. -/
def is_ignorable_space (c : String) : Bool :=
  pyIsspace c && !(c == "\n")

/-- `consume_whitespace(stream, peek_func=pf)`. -/
def consume_whitespace (fuel : Nat) (pf : PeekFn) (s : Strm) : Res (String × Strm) :=
  consume fuel pf is_ignorable_space s

/-- `consume_not_whitespace(stream, peek_func=pf)`. -/
def consume_not_whitespace (fuel : Nat) (pf : PeekFn) (s : Strm) : Res (String × Strm) :=
  consume fuel pf (fun c => !is_ignorable_space c) s

/-- `consume_in(stream, chars, peek_func=pf)`. -/
def consume_in (fuel : Nat) (pf : PeekFn) (chars : String) (s : Strm) : Res (String × Strm) :=
  consume fuel pf (fun c => pyIn c chars) s

/-- `consume_not_in(stream, chars, peek_func=pf)`. -/
def consume_not_in (fuel : Nat) (pf : PeekFn) (chars : String) (s : Strm) : Res (String × Strm) :=
  consume fuel pf (fun c => !pyIn c chars) s

/-- `consume_line(stream)`: rest of the line without the newline.  The Python
function ignores any extra arguments, so the peek is always the default one. -/
def consume_line (fuel : Nat) (s : Strm) : Res (String × Strm) :=
  consume_not_in fuel defaultPeek "\n" s

/-- The escape-aware peek local to `consume_delimited`:
`c = peek(); return ((read(1) and peek()) if c == '\\' else c), 1`.
When the current character is a backslash it is consumed as a side effect and
the unit returned is the character after it, still with width 1. -/
def escPeek : PeekFn := fun _ s =>
  let c := peekS s
  if c = "\\" then
    let s1 := readAdv s 1
    .ok (peekS s1, 1, s1)
  else .ok (c, 1, s)

/-- `read_delimiter()` local to `consume_delimited`:
`assert(stream.read(1) == delimiter)`. -/
def read_delimiter (delimiter : String) (s : Strm) : Res Strm :=
  let (c, s1) := readS s 1
  if c = delimiter then .ok s1 else .assertFail

/-- `consume_delimited(stream, delimiter)`: opening delimiter, then
`consume_not_in(stream, delimiter, peek_func=escPeek)`, then closing
delimiter. -/
def consume_delimited (fuel : Nat) (delimiter : String) (s : Strm) : Res (String × Strm) :=
  match read_delimiter delimiter s with
  | .ok s1 =>
    match consume_not_in fuel escPeek delimiter s1 with
    | .ok (string, s2) =>
      match read_delimiter delimiter s2 with
      | .ok s3 => .ok (string, s3)
      | .assertFail => .assertFail
      | .noFuel => .noFuel
    | .assertFail => .assertFail
    | .noFuel => .noFuel
  | _ => .assertFail

/-- The `while` loop inside `peek_strip`: while the peeked string is a
substring of `";\n"` (which includes the empty string at end of input),
consume the rest of the line and one more character. -/
def stripLoop : Nat → Strm → Res Strm
  | 0, _ => .noFuel
  | fuel+1, s =>
    if pyIn (peekS s) ";\n" then
      match consume_line fuel s with
      | .ok (_, s1) => stripLoop fuel (readAdv s1 1)
      | .assertFail => .assertFail
      | .noFuel => .noFuel
    else .ok s

/-- `peek_strip(stream)` local to `consume_token`: if the current peek is in
`';\n'`, run the strip loop and then `seek(tell() - 1)`; finally return
`stream.peek(), 1`. -/
def peek_strip (fuel : Nat) (s : Strm) : Res (String × Nat × Strm) :=
  if pyIn (peekS s) ";\n" then
    match stripLoop fuel s with
    | .ok s1 =>
      let s2 := seekS s1 (tellS s1 - 1)
      .ok (peekS s2, 1, s2)
    | .assertFail => .assertFail
    | .noFuel => .noFuel
  else .ok (peekS s, 1, s)

/-- `peek_delimited()` local to `consume_token.peek`: save `tell()`, run
`consume_delimited`, restore the position, and report the quoted token with
width `len(token) + 2`. -/
def peek_delimited (fuel : Nat) (c : String) (s : Strm) : Res (String × Nat × Strm) :=
  let pos := tellS s
  match consume_delimited fuel c s with
  | .ok (token, s1) => .ok (token, token.length + 2, seekS s1 pos)
  | .assertFail => .assertFail
  | .noFuel => .noFuel

/-- `peek(stream)` local to `consume_token`: `c = peek_strip(stream)[0]`,
then `peek_delimited() if c in '\'"' else (c, 1)`.  Note that `c in '\'"'`
uses substring semantics as well. -/
def peek (fuel : Nat) (s : Strm) : Res (String × Nat × Strm) :=
  match peek_strip fuel s with
  | .ok (c, _, s1) =>
    if pyIn c "'\"" then peek_delimited fuel c s1
    else .ok (c, 1, s1)
  | .assertFail => .assertFail
  | .noFuel => .noFuel

/-- `consume_token(stream)`: discard leading whitespace through the
comment-aware peek, then consume until whitespace through the quote-aware
peek. -/
def consume_token (fuel : Nat) (s : Strm) : Res (String × Strm) :=
  match consume_whitespace fuel peek_strip s with
  | .ok (_, s1) => consume_not_whitespace fuel peek s1
  | .assertFail => .assertFail
  | .noFuel => .noFuel

/-- `Reader(stream)` from `tokens`: the wrapper stores only a reference to the
underlying stream and delegates `read`/`seek`/`tell` to it; its `peek` is
`readerPeek`.  It holds no cursor state of its own, so as a state transformer
it is the identity. -/
def Reader (stream : Strm) : Strm := stream

/-- The `while token := consume_token(stream): yield token` loop of `tokens`,
collected into a list. -/
def tokensLoop : Nat → Strm → Res (List String × Strm)
  | 0, _ => .noFuel
  | fuel+1, s =>
    match consume_token fuel s with
    | .ok (token, s1) =>
      if token = "" then .ok ([], s1)
      else
        match tokensLoop fuel s1 with
        | .ok (ts, s2) => .ok (token :: ts, s2)
        | .assertFail => .assertFail
        | .noFuel => .noFuel
    | .assertFail => .assertFail
    | .noFuel => .noFuel

/-- `tokens(stream)`: wrap the source in a `Reader` and yield tokens until an
empty one. -/
def tokens (fuel : Nat) (s : Strm) : Res (List String × Strm) :=
  tokensLoop fuel (Reader s)

/-- `tokenize_string(string)`: `tokens(io.StringIO(string))`. -/
def tokenize_string (fuel : Nat) (string : String) : Res (List String × Strm) :=
  tokens fuel ⟨string.data, 0⟩

/-! ## Generic stepping lemmas for `consume` -/

/-- One unfolding of `consume` at positive fuel. -/
lemma consume_succ (fuel : Nat) (pf : PeekFn) (pred : String → Bool) (s : Strm) :
    consume (fuel+1) pf pred s =
      match pf fuel s with
      | .ok (chunk, size, s1) =>
        if (chunk != "") && pred chunk then
          match consume fuel pf pred (readAdv s1 size) with
          | .ok (token, s2) => .ok (chunk ++ token, s2)
          | .assertFail => .assertFail
          | .noFuel => .noFuel
        else .ok ("", s1)
      | .assertFail => .assertFail
      | .noFuel => .noFuel := rfl

/-- `consume` stops when the peeked chunk is falsy or fails the predicate. -/
lemma consume_reject {fuel : Nat} {pf : PeekFn} {pred : String → Bool}
    {s s1 : Strm} {chunk : String} {size : Nat}
    (hp : pf fuel s = .ok (chunk, size, s1))
    (hc : ((chunk != "") && pred chunk) = false) :
    consume (fuel+1) pf pred s = .ok ("", s1) := by
  rw [consume_succ, hp]
  simp [hc]

/-- `consume` accepts a chunk and the recursive call succeeds. -/
lemma consume_accept_ok {fuel : Nat} {pf : PeekFn} {pred : String → Bool}
    {s s1 s2 : Strm} {chunk token : String} {size : Nat}
    (hp : pf fuel s = .ok (chunk, size, s1))
    (hc : ((chunk != "") && pred chunk) = true)
    (hr : consume fuel pf pred (readAdv s1 size) = .ok (token, s2)) :
    consume (fuel+1) pf pred s = .ok (chunk ++ token, s2) := by
  rw [consume_succ, hp]
  simp [hc, hr]

/-- `consume` accepts a chunk and the recursive call runs out of fuel. -/
lemma consume_accept_noFuel {fuel : Nat} {pf : PeekFn} {pred : String → Bool}
    {s s1 : Strm} {chunk : String} {size : Nat}
    (hp : pf fuel s = .ok (chunk, size, s1))
    (hc : ((chunk != "") && pred chunk) = true)
    (hr : consume fuel pf pred (readAdv s1 size) = .noFuel) :
    consume (fuel+1) pf pred s = .noFuel := by
  rw [consume_succ, hp]
  simp [hc, hr]

/-- `consume` propagates fuel exhaustion raised inside the peek function. -/
lemma consume_peek_noFuel {fuel : Nat} {pf : PeekFn} {pred : String → Bool} {s : Strm}
    (hp : pf fuel s = .noFuel) :
    consume (fuel+1) pf pred s = .noFuel := by
  rw [consume_succ, hp]

/-! ## Behaviour at end of input

When the cursor is at (or past) the end of the source, `stream.peek()`
returns the empty string, and Python's substring test `'' in ';\n'` is true,
so the strip loop inside `peek_strip` never exits: it consumes nothing,
re-tests the same state, and repeats forever.  In the fuel model this is
`Res.noFuel` at every fuel. -/

lemma peekS_eof {s : Strm} (h : s.src.length ≤ s.pos) : peekS s = "" := by
  simp [peekS, readerPeek, readS, List.drop_eq_nil_of_le h]

lemma readAdv_eof {s : Strm} (n : Nat) (h : s.src.length ≤ s.pos) : readAdv s n = s := by
  simp [readAdv, readS, Nat.sub_eq_zero_of_le h]

lemma stripLoop_eof (fuel : Nat) {s : Strm} (h : s.src.length ≤ s.pos) :
    stripLoop fuel s = .noFuel := by
  induction fuel with
  | zero => rfl
  | succ f ih =>
    have hpk : peekS s = "" := peekS_eof h
    simp only [stripLoop, hpk]
    rw [if_pos (show pyIn "" ";\n" = true by decide)]
    cases f with
    | zero => rfl
    | succ g =>
      have hline : consume (g+1) defaultPeek (fun c => !pyIn c "\n") s = .ok ("", s) :=
        consume_reject (show defaultPeek g s = Res.ok ("", 1, s) by simp [defaultPeek, hpk])
          (by decide)
      have hline' : consume_line (g+1) s = .ok ("", s) := hline
      simp only [hline']
      rw [readAdv_eof 1 h]
      exact ih

lemma peek_strip_eof (fuel : Nat) {s : Strm} (h : s.src.length ≤ s.pos) :
    peek_strip fuel s = .noFuel := by
  unfold peek_strip
  rw [peekS_eof h, if_pos (by decide), stripLoop_eof fuel h]

lemma peek_eof (fuel : Nat) {s : Strm} (h : s.src.length ≤ s.pos) :
    peek fuel s = .noFuel := by
  unfold peek
  rw [peek_strip_eof fuel h]

/-! ## Characterizations of the peek helpers away from special characters -/

/-- `peek_strip` at a position whose peeked string is not in `";\n"` is a pure
single-character peek. -/
lemma peek_strip_plain (fuel : Nat) {s : Strm} (h : pyIn (peekS s) ";\n" = false) :
    peek_strip fuel s = .ok (peekS s, 1, s) := by
  unfold peek_strip
  simp [h]

/-- `peek` at a plain character (no comment strip, no quote) is a
single-character peek. -/
lemma peek_plain (fuel : Nat) {s : Strm} (h1 : pyIn (peekS s) ";\n" = false)
    (h2 : pyIn (peekS s) "'\"" = false) :
    peek fuel s = .ok (peekS s, 1, s) := by
  unfold peek
  rw [peek_strip_plain fuel h1]
  simp [h2]

/-- One unfolding of `tokensLoop` at positive fuel. -/
lemma tokensLoop_succ (fuel : Nat) (s : Strm) :
    tokensLoop (fuel+1) s =
      match consume_token fuel s with
      | .ok (token, s1) =>
        if token = "" then .ok ([], s1)
        else
          match tokensLoop fuel s1 with
          | .ok (ts, s2) => .ok (token :: ts, s2)
          | .assertFail => .assertFail
          | .noFuel => .noFuel
      | .assertFail => .assertFail
      | .noFuel => .noFuel := rfl

/-- `tokensLoop` dies when `consume_token` runs out of fuel. -/
lemma tokensLoop_ct_noFuel {fuel : Nat} {s : Strm}
    (h : consume_token fuel s = .noFuel) :
    tokensLoop (fuel+1) s = .noFuel := by
  rw [tokensLoop_succ, h]

/-- `tokensLoop` yields a token and then dies in the recursive call. -/
lemma tokensLoop_cons_noFuel {fuel : Nat} {s s1 : Strm} {token : String}
    (h1 : consume_token fuel s = .ok (token, s1)) (h2 : ¬token = "")
    (h3 : tokensLoop fuel s1 = .noFuel) :
    tokensLoop (fuel+1) s = .noFuel := by
  rw [tokensLoop_succ, h1]
  simp [h2, h3]

/-! ## Divergence of the scanner on the comment-only source `";"` -/

lemma strip_semicolon : ∀ fuel : Nat, stripLoop fuel ⟨";".data, 0⟩ = .noFuel := by
  intro fuel
  match fuel with
  | 0 => rfl
  | 1 => decide
  | 2 => decide
  | (g+3) =>
    have h1 : consume (g+1) defaultPeek (fun c => !pyIn c "\n")
        (readAdv ⟨";".data, 0⟩ 1) = .ok ("", ⟨";".data, 1⟩) :=
      consume_reject
        (show defaultPeek g (readAdv ⟨";".data, 0⟩ 1) = Res.ok ("", 1, ⟨";".data, 1⟩) from rfl)
        (by decide)
    have hline : consume (g+2) defaultPeek (fun c => !pyIn c "\n") ⟨";".data, 0⟩
        = .ok (";", ⟨";".data, 1⟩) :=
      consume_accept_ok
        (show defaultPeek (g+1) ⟨";".data, 0⟩ = Res.ok (";", 1, ⟨";".data, 0⟩) from rfl)
        (by decide) h1
    have hline' : consume_line (g+2) ⟨";".data, 0⟩ = .ok (";", ⟨";".data, 1⟩) := hline
    simp only [stripLoop]
    rw [if_pos (show pyIn (peekS ⟨";".data, 0⟩) ";\n" = true by decide)]
    simp only [hline']
    exact stripLoop_eof (g+2) (by decide)

lemma peek_strip_semicolon (fuel : Nat) : peek_strip fuel ⟨";".data, 0⟩ = .noFuel := by
  unfold peek_strip
  rw [if_pos (show pyIn (peekS ⟨";".data, 0⟩) ";\n" = true by decide),
    strip_semicolon fuel]

lemma consume_token_semicolon (fuel : Nat) :
    consume_token fuel ⟨";".data, 0⟩ = .noFuel := by
  match fuel with
  | 0 => rfl
  | (f+1) =>
    have hws : consume_whitespace (f+1) peek_strip ⟨";".data, 0⟩ = .noFuel :=
      consume_peek_noFuel (peek_strip_semicolon f)
    unfold consume_token
    rw [hws]

/-! ## Divergence of the scanner on the source `"a b c"` -/

lemma ct_abc_0 (f : Nat) :
    consume_token (f+2) ⟨"a b c".data, 0⟩ = .ok ("a", ⟨"a b c".data, 1⟩) := by
  have hws : consume_whitespace (f+2) peek_strip ⟨"a b c".data, 0⟩
      = .ok ("", ⟨"a b c".data, 0⟩) :=
    consume_reject (peek_strip_plain (f+1) (by decide)) (by decide)
  have htok : consume_not_whitespace (f+2) peek ⟨"a b c".data, 0⟩
      = .ok ("a", ⟨"a b c".data, 1⟩) :=
    consume_accept_ok (peek_plain (f+1) (by decide) (by decide)) (by decide)
      (consume_reject (peek_plain f (by decide) (by decide)) (by decide))
  unfold consume_token
  rw [hws]
  exact htok

lemma ct_abc_1 (f : Nat) :
    consume_token (f+2) ⟨"a b c".data, 1⟩ = .ok ("b", ⟨"a b c".data, 3⟩) := by
  have hws : consume_whitespace (f+2) peek_strip ⟨"a b c".data, 1⟩
      = .ok (" ", ⟨"a b c".data, 2⟩) :=
    consume_accept_ok (peek_strip_plain (f+1) (by decide)) (by decide)
      (consume_reject (peek_strip_plain f (by decide)) (by decide))
  have htok : consume_not_whitespace (f+2) peek ⟨"a b c".data, 2⟩
      = .ok ("b", ⟨"a b c".data, 3⟩) :=
    consume_accept_ok (peek_plain (f+1) (by decide) (by decide)) (by decide)
      (consume_reject (peek_plain f (by decide) (by decide)) (by decide))
  unfold consume_token
  rw [hws]
  exact htok

lemma ct_abc_3 (fuel : Nat) : consume_token fuel ⟨"a b c".data, 3⟩ = .noFuel := by
  match fuel with
  | 0 => rfl
  | 1 => decide
  | (f+2) =>
    have hws : consume_whitespace (f+2) peek_strip ⟨"a b c".data, 3⟩
        = .ok (" ", ⟨"a b c".data, 4⟩) :=
      consume_accept_ok (peek_strip_plain (f+1) (by decide)) (by decide)
        (consume_reject (peek_strip_plain f (by decide)) (by decide))
    have htok : consume_not_whitespace (f+2) peek ⟨"a b c".data, 4⟩ = .noFuel :=
      consume_accept_noFuel (peek_plain (f+1) (by decide) (by decide)) (by decide)
        (consume_peek_noFuel (peek_eof f (by decide)))
    unfold consume_token
    rw [hws]
    exact htok

lemma loop_abc_3 (fuel : Nat) : tokensLoop fuel ⟨"a b c".data, 3⟩ = .noFuel := by
  match fuel with
  | 0 => rfl
  | (f+1) => exact tokensLoop_ct_noFuel (ct_abc_3 f)

lemma loop_abc_1 (fuel : Nat) : tokensLoop fuel ⟨"a b c".data, 1⟩ = .noFuel := by
  match fuel with
  | 0 => rfl
  | 1 => decide
  | 2 => decide
  | (f+3) =>
    exact tokensLoop_cons_noFuel (ct_abc_1 f) (by decide) (loop_abc_3 (f+2))

lemma loop_abc_0 (fuel : Nat) : tokensLoop fuel ⟨"a b c".data, 0⟩ = .noFuel := by
  match fuel with
  | 0 => rfl
  | 1 => decide
  | 2 => decide
  | (f+3) =>
    exact tokensLoop_cons_noFuel (ct_abc_0 f) (by decide) (loop_abc_1 (f+2))

/-! ## Divergence of `consume_token` on the source `"a\nb"` -/

lemma ct_anb_inner (f : Nat) : consume (f+1) peek (fun c => !is_ignorable_space c)
    ⟨"a\nb".data, 1⟩ = .noFuel := by
  match f with
  | 0 => decide
  | 1 => decide
  | (h+2) =>
    have hline0 : consume (h+1) defaultPeek (fun c => !pyIn c "\n") ⟨"a\nb".data, 1⟩
        = .ok ("", ⟨"a\nb".data, 1⟩) :=
      consume_reject
        (show defaultPeek h ⟨"a\nb".data, 1⟩ = Res.ok ("\n", 1, ⟨"a\nb".data, 1⟩) from rfl)
        (by decide)
    have hline : consume_line (h+1) ⟨"a\nb".data, 1⟩ = .ok ("", ⟨"a\nb".data, 1⟩) := hline0
    have htail : stripLoop (h+1) ⟨"a\nb".data, 2⟩ = .ok ⟨"a\nb".data, 2⟩ := by
      simp only [stripLoop]
      rw [if_neg (by decide)]
    have hsl : stripLoop (h+2) ⟨"a\nb".data, 1⟩ = .ok ⟨"a\nb".data, 2⟩ := by
      simp only [stripLoop]
      rw [if_pos (show pyIn (peekS ⟨"a\nb".data, 1⟩) ";\n" = true by decide)]
      simp only [hline]
      exact htail
    have hps : peek_strip (h+2) ⟨"a\nb".data, 1⟩ = .ok ("\n", 1, ⟨"a\nb".data, 1⟩) := by
      unfold peek_strip
      rw [if_pos (show pyIn (peekS ⟨"a\nb".data, 1⟩) ";\n" = true by decide), hsl]
      rfl
    have hpk : peek (h+2) ⟨"a\nb".data, 1⟩ = .ok ("\n", 1, ⟨"a\nb".data, 1⟩) := by
      unfold peek
      rw [hps]
      simp [show pyIn "\n" "'\"" = false by decide]
    exact consume_accept_noFuel hpk (by decide)
      (consume_accept_noFuel (peek_plain (h+1) (by decide) (by decide)) (by decide)
        (consume_peek_noFuel (peek_eof h (by decide))))

lemma ct_anb (fuel : Nat) : consume_token fuel ⟨"a\nb".data, 0⟩ = .noFuel := by
  match fuel with
  | 0 => rfl
  | (f+1) =>
    have hws : consume_whitespace (f+1) peek_strip ⟨"a\nb".data, 0⟩
        = .ok ("", ⟨"a\nb".data, 0⟩) :=
      consume_reject (peek_strip_plain f (by decide)) (by decide)
    have htok : consume_not_whitespace (f+1) peek ⟨"a\nb".data, 0⟩ = .noFuel := by
      match f with
      | 0 => decide
      | (g+1) =>
        exact consume_accept_noFuel (peek_plain (g+1) (by decide) (by decide))
          (by decide) (ct_anb_inner g)
    unfold consume_token
    rw [hws]
    exact htok

/-! ## Claim theorems -/

/-- C1: the claim states that an escaped delimiter does not terminate a
quoted span and that the 12-character source `"say \"hi\""` tokenizes to the
single token `say "hi"`.  The code disagrees: `consume` applies the
not-the-delimiter predicate to the character standing *after* the backslash,
so an escaped delimiter closes the span.  The source tokenizes to the single
token `say hi` (both escaped quotes act as closing/opening delimiters and are
lost), refuting the claimed result. -/
theorem c1_escaped_delimiter_closes_the_span :
    tokenize_string 64 "\"say \\\"hi\\\"\"" =
      .ok (["say hi"], ⟨"\"say \\\"hi\\\"\"".data, 10⟩) := by decide

/-- C2: the claim states the comment/blank-line skipper's loop exits when the
source is exhausted, and that comment-only inputs yield zero tokens and
terminate.  In the code the loop condition is `stream.peek() in ';\n'`, and at
end of input `peek()` returns `''`, which Python's substring test accepts, so
the loop never exits.  On the comment-only source `";"` the token stream
diverges: no amount of fuel makes it return. -/
theorem c2_comment_skipper_diverges_at_end_of_input :
    ∀ fuel : Nat, tokenize_string fuel ";" = .noFuel := by
  intro fuel
  match fuel with
  | 0 => rfl
  | (f+1) =>
    show tokensLoop (f+1) (Reader ⟨";".data, 0⟩) = .noFuel
    simp only [tokensLoop, Reader]
    rw [consume_token_semicolon f]

/-- C3: the claim states `"a b c"` tokenizes to exactly `["a", "b", "c"]` and
then the stream terminates.  The code yields `"a"` and `"b"`, but while
scanning `"c"` the cursor reaches end of input and the comment skipper spins
forever (see C2), so the token stream diverges at every fuel and `"c"` is
never emitted. -/
theorem c3_abc_tokenization_diverges :
    ∀ fuel : Nat, tokenize_string fuel "a b c" = .noFuel :=
  fun fuel => loop_abc_0 fuel

/-- C4: the claim states that a source whose quoted span is never closed by
an unescaped delimiter of the same kind always fails with an assertion
failure rather than returning a partial token.  On the 11-character source
`"\a\b;\"` + newline + `''` the opening `"` is never matched by an unescaped
`"`, yet scanning succeeds and returns the token list `["ab;\n"]`: the
escaped `"` closes the span early, the under-reported width rewinds the
cursor onto the `;`, the rest of that line (including the dangling quote) is
skipped as a comment, and the empty `''` literal then ends the stream. -/
theorem c4_unterminated_quote_returns_tokens :
    tokenize_string 64 "\"\\a\\b;\\\"\n''" =
      .ok (["ab;\n"], ⟨"\"\\a\\b;\\\"\n''".data, 9⟩) := by decide

/-- C5: the claim states the width reported by the quoted-span lookahead
equals the raw extent of the literal: delimiters, content, and every escape
backslash.  The code reports `len(token) + 2`, which omits the backslashes:
on `"\a" b` the literal occupies source positions 0-3 (4 characters) but the
reported width is 3, so advancing by the width lands on the closing quote
rather than past the literal; tokenizing this source consequently ends in the
closing-delimiter assertion failure instead of `["a", "b"]`. -/
theorem c5_quoted_peek_width_omits_escapes :
    peek_delimited 20 "\"" ⟨"\"\\a\" b".data, 0⟩ =
      .ok ("a", 3, ⟨"\"\\a\" b".data, 0⟩) ∧
    tokenize_string 64 "\"\\a\" b" = .assertFail :=
  ⟨by decide, by decide⟩

/-- C6: the claim states that tokens separated only by comments and blank
lines are emitted separately and that none of the separating material appears
in the output.  The code's one-character rewind leaves the comment's final
newline visible, and a newline is not ignorable whitespace, so it is consumed
into the token: on `a;x` + newline + `b ""` the two tokens `a` and `b` merge
into the single token `"a\nb"` with the separator newline embedded in it. -/
theorem c6_comment_newline_merges_adjacent_tokens :
    tokenize_string 64 "a;x\nb \"\"" =
      .ok (["a\nb"], ⟨"a;x\nb \"\"".data, 6⟩) := by decide

/-- C7: the claim states `consume_token` returns the empty string only at end
of input.  On the source `"" x` an empty quoted literal is peeked as an empty
chunk, which the generic consumer treats as the stop signal: `consume_token`
returns `""` with the cursor at position 0 of a 4-character source, and the
token stream consequently yields zero tokens, never reaching `x`. -/
theorem c7_empty_token_before_end_of_input :
    consume_token 50 ⟨"\"\" x".data, 0⟩ = .ok ("", ⟨"\"\" x".data, 0⟩) ∧
    tokenize_string 50 "\"\" x" = .ok ([], ⟨"\"\" x".data, 0⟩) :=
  ⟨by decide, by decide⟩

/-- C8: the claim states that for every source `w1 ++ "\n" ++ w2` (words
without whitespace, quotes or `;`) the scanner consumes both words and the
newline into one single token.  The merging behaviour is real, but on the
exact sources of that form the scanner never returns the token: after
consuming `w2` the cursor is at end of input and the comment skipper inside
the next peek spins forever.  At `w1 = "a"`, `w2 = "b"`: `consume_token`
diverges at every fuel, while with a trailing space the single merged token
`"a\nb"` (one token, not two) is returned. -/
theorem c8_newline_merged_token_never_returned :
    (∀ fuel : Nat, consume_token fuel ⟨"a\nb".data, 0⟩ = .noFuel) ∧
    consume_token 50 ⟨"a\nb ".data, 0⟩ = .ok ("a\nb", ⟨"a\nb ".data, 3⟩) :=
  ⟨ct_anb, by decide⟩

/-- C9: creating a token-stream wrapper over a source does not modify or
reset the cursor: the `Reader` wrapper is the identity on the stream state,
and two wrappers over the same source used sequentially continue where the
previous one left off, as in the command-line demo: the first wrapper's first
token is `ab` leaving the cursor at 2, and a fresh wrapper over the same
source state then produces `cd` (the next token), not `ab` again. -/
theorem c9_reader_wrapper_preserves_position :
    (∀ s : Strm, Reader s = s) ∧
    consume_token 50 (Reader ⟨"ab cd x".data, 0⟩) = .ok ("ab", ⟨"ab cd x".data, 2⟩) ∧
    consume_token 50 (Reader ⟨"ab cd x".data, 2⟩) = .ok ("cd", ⟨"ab cd x".data, 5⟩) :=
  ⟨fun _ => rfl, by decide, by decide⟩

/-- C10: the backtracking lookahead helpers named by the claim restore the
cursor before returning: the single-character peek (`Reader.peek`, modelled by
`readerPeek`) leaves the stream state unchanged, and the whole-quoted-literal
peek (`peek_delimited`) always returns a state whose `tell` equals the saved
position, for every cursor state on which it returns at all. -/
theorem c10_lookahead_helpers_restore_position :
    (∀ s : Strm, (readerPeek s).2 = s) ∧
    (∀ (fuel : Nat) (c : String) (s : Strm) (token : String) (width : Nat) (s1 : Strm),
      peek_delimited fuel c s = .ok (token, width, s1) → s1.pos = s.pos) := by
  constructor
  · intro s
    rfl
  · intro fuel c s token width s1 h
    unfold peek_delimited at h
    cases hcd : consume_delimited fuel c s with
    | ok v =>
      obtain ⟨tok2, s2⟩ := v
      rw [hcd] at h
      simp only [Res.ok.injEq, Prod.mk.injEq] at h
      obtain ⟨-, -, hs⟩ := h
      rw [← hs]
      rfl
    | assertFail => rw [hcd] at h; cases h
    | noFuel => rw [hcd] at h; cases h

/-- C10 witness: the whole-literal lookahead at position 2 of `x "a"` returns
(the quoted content, width 3) with the cursor restored to 2. -/
theorem c10_lookahead_helpers_restore_position_witness :
    (Strm.mk "x \"a\"".data 2).pos = (Strm.mk "x \"a\"".data 2).pos :=
  c10_lookahead_helpers_restore_position.2 10 "\"" ⟨"x \"a\"".data, 2⟩ "a" 3
    ⟨"x \"a\"".data, 2⟩ (by decide)
